import Mathlib

/-!
Verification of the streaming-data-pipeline repository against its
natural-language specification.  The Python sources are shallowly embedded:
dictionaries become association lists or structures, exceptions become
`Option`/explicit outcome flags, and external effects (schema validation,
file writes) become oracle parameters.
-/

namespace Pipeline

/-- Substring containment on character lists, mirroring Python's
`needle in haystack` for strings. -/
def containsSub (needle : List Char) : List Char → Bool
  | [] => needle.isEmpty
  | c :: rest => needle.isPrefixOf (c :: rest) || containsSub needle rest

/-- Python `needle in haystack` on strings. -/
def strContains (haystack needle : String) : Bool :=
  containsSub needle.data haystack.data

/-- ASCII lowercasing of one character (the patterns matched by the
categorizer are ASCII, so this matches Python `str.lower` on them). -/
def lowerChar (c : Char) : Char :=
  if 65 ≤ c.toNat ∧ c.toNat ≤ 90 then Char.ofNat (c.toNat + 32) else c

/-- Python `s.lower()`. -/
def pyLower (s : String) : String :=
  ⟨s.data.map lowerChar⟩

/-- `DeadLetterHandler._categorize_error` from `src/dead_letter_handler.py`:
a deterministic ordered rule match over (error_type, error_message, stage),
first match wins. -/
def categorizeError (errorType errorMessage stage : String) : String :=
  if strContains (pyLower errorMessage) "required" || strContains (pyLower errorMessage) "missing" then
    "missing_required_field"
  else if strContains (pyLower errorMessage) "enum" || strContains (pyLower errorMessage) "not one of" then
    "invalid_enum_value"
  else if strContains (pyLower errorMessage) "type" || strContains errorType "TypeError" then
    "data_type_error"
  else if strContains (pyLower errorMessage) "connection" || strContains (pyLower errorMessage) "timeout" then
    "network_error"
  else if strContains (pyLower errorMessage) "disk" || strContains (pyLower errorMessage) "storage" then
    "storage_error"
  else if strContains errorType "ValidationError" || strContains (pyLower errorMessage) "schema" then
    "schema_validation_error"
  else if stage = "producer_validation" then
    "producer_validation_error"
  else if stage = "consumer_validation" then
    "consumer_validation_error"
  else if stage = "transformation" then
    "transformation_error"
  else if stage = "sink_write" then
    "sink_write_error"
  else
    "unknown_error"

/-- `DeadLetterHandler._can_retry_event` from `src/dead_letter_handler.py`:
the retry decision, a function of the error type and the processing stage
only (the error message is not an argument). -/
def canRetryEvent (errorType stage : String) : Bool :=
  if strContains errorType "ValidationError" then
    false
  else if strContains errorType "TypeError" then
    false
  else if strContains errorType "required" then
    false
  else if strContains (pyLower errorType) "connection" || strContains (pyLower errorType) "timeout" then
    true
  else if strContains (pyLower errorType) "storage" || strContains (pyLower errorType) "disk" then
    true
  else if stage = "transformation" then
    true
  else
    false

/-- `DeadLetterHandler._suggest_remediation` from `src/dead_letter_handler.py`. -/
def suggestRemediation (errorCategory _stage : String) : String :=
  if errorCategory = "schema_validation_error" then "Review and update event schema or fix data format"
  else if errorCategory = "data_type_error" then "Check data types and ensure proper type conversion"
  else if errorCategory = "missing_required_field" then "Add missing required fields to event data"
  else if errorCategory = "invalid_enum_value" then "Use valid enum values as defined in schema"
  else if errorCategory = "network_error" then "Check network connectivity and retry"
  else if errorCategory = "storage_error" then "Check disk space and file permissions"
  else if errorCategory = "producer_validation_error" then "Fix event data before sending to producer"
  else if errorCategory = "consumer_validation_error" then "Review event format and schema compliance"
  else if errorCategory = "transformation_error" then "Check transformation logic and data compatibility"
  else if errorCategory = "sink_write_error" then "Verify sink configuration and storage availability"
  else if errorCategory = "unknown_error" then "Review error logs for specific issue"
  else "Review error logs for specific issue"

/-- The error-analysis object attached to a processed dead-letter record
(`analyzed_at` is a wall-clock stamp, kept abstract). -/
structure ErrorAnalysis where
  errorCategory : String
  canRetry : Bool
  remediationSuggestion : String
  deriving Repr, DecidableEq

/-- A dead-letter record, keeping the fields the handler reads and writes.
Python dictionaries are open; each listed field is `Option`al to model a
missing key. -/
structure DLEvent where
  errorType : Option String := none
  errorMessage : Option String := none
  processingStage : Option String := none
  errorAnalysis : Option ErrorAnalysis := none
  deriving Repr, DecidableEq

/-- `DeadLetterHandler._analyze_error` from `src/dead_letter_handler.py`:
reads the three error fields with Python `.get` defaults and assembles the
analysis object. -/
def analyzeError (event : DLEvent) : ErrorAnalysis :=
  let errorType := event.errorType.getD "Unknown"
  let errorMessage := event.errorMessage.getD ""
  let processingStage := event.processingStage.getD "Unknown"
  let errorCategory := categorizeError errorType errorMessage processingStage
  let canRetry := canRetryEvent errorType processingStage
  let remediation := suggestRemediation errorCategory processingStage
  { errorCategory := errorCategory, canRetry := canRetry,
    remediationSuggestion := remediation }

/-- First-match evaluation of an ordered rule table, falling through to
`unknown_error`; used to state the spec's reading of §4.4. -/
def firstMatch : List (Bool × String) → String
  | [] => "unknown_error"
  | (g, c) :: rest => if g then c else firstMatch rest

/-- The ordered rule table of spec §4.4, written from the spec's words (for
comparison with `categorizeError`, which is translated from the source). -/
def categorySpecRules (errorType errorMessage stage : String) : List (Bool × String) :=
  let m := pyLower errorMessage
  [ (strContains m "required" || strContains m "missing", "missing_required_field"),
    (strContains m "enum" || strContains m "not one of", "invalid_enum_value"),
    (strContains m "type" || strContains errorType "TypeError", "data_type_error"),
    (strContains m "connection" || strContains m "timeout", "network_error"),
    (strContains m "disk" || strContains m "storage", "storage_error"),
    (strContains errorType "ValidationError" || strContains m "schema", "schema_validation_error"),
    (stage = "producer_validation", "producer_validation_error"),
    (stage = "consumer_validation", "consumer_validation_error"),
    (stage = "transformation", "transformation_error"),
    (stage = "sink_write", "sink_write_error") ]

/-- Spec §4.4 categorizer: first match over the ordered rule table. -/
def categorizeSpec (errorType errorMessage stage : String) : String :=
  firstMatch (categorySpecRules errorType errorMessage stage)

/-! ## Values and records

Python records are open string-keyed dictionaries.  A record is an
association list from field name to `Option PVal`; `none` is Python `None`
(a key bound to `none` models a key present with value `None`, a key absent
from the list models a missing key — `dict.get` returns `None` for both,
which is what every embedded operation reads). -/

/-- A Python runtime value, as far as the pipeline inspects one.  The sink
writer's type inference only tests `isinstance` against bool/int/float/
str/dict/list, and no embedded operation reads inside a nested dict or
list, so their payloads are abstracted to a tag. -/
inductive PVal where
  | pBool (b : Bool)
  | pInt (n : Int)
  | pFloat (q : ℚ)
  | pStr (s : String)
  | pDict (tag : String)
  | pList (tag : String)
  | pOther (tag : String)
  deriving Repr, DecidableEq

/-- A record: an association list of field name to optional value. -/
abbrev Event := List (String × Option PVal)

/-- The field names of a record. -/
def eventKeys (e : Event) : List String := e.map Prod.fst

/-- Python `event.get(key)`: `None` when the key is absent or bound to
`None`. -/
def getVal (e : Event) (k : String) : Option PVal := (e.lookup k).join

/-! ## Columnar sink writer (`src/sink_writer.py`) -/

/-- The PyArrow column types produced by `_infer_pyarrow_type`. -/
inductive PAType where
  | null
  | paBool
  | int64
  | float64
  | string
  | struct
  | listString
  deriving Repr, DecidableEq

/-- The `isinstance` chain of `_infer_pyarrow_type` applied to the sampled
first non-null value. -/
def sampleType : PVal → PAType
  | .pBool _ => .paBool
  | .pInt _ => .int64
  | .pFloat _ => .float64
  | .pStr _ => .string
  | .pDict _ => .struct
  | .pList _ => .listString
  | .pOther _ => .string

/-- `ParquetSinkWriter._infer_pyarrow_type`: all-null columns get the null
type, otherwise the type of the first non-null value. -/
def inferPyarrowType (values : List (Option PVal)) : PAType :=
  let nonNull := values.filterMap id
  match nonNull with
  | [] => .null
  | v :: _ => sampleType v

/-- The union of all field names across a batch (`all_keys` in
`_batch_to_table`); a Python set, here insertion-ordered. -/
def allKeys (events : List Event) : List String :=
  ((events.map eventKeys).flatten).foldl
    (fun acc k => if acc.contains k then acc else acc ++ [k]) []

/-- One step of the column-filling loop of `_batch_to_table`: append each
event's value (null when missing) to every column. -/
def fillStep (cols : List (String × List (Option PVal))) (e : Event) :
    List (String × List (Option PVal)) :=
  cols.map (fun kv => (kv.1, kv.2 ++ [getVal e kv.1]))

/-- The column-filling loops of `_batch_to_table`. -/
def fillColumns (events : List Event) (keys : List String) :
    List (String × List (Option PVal)) :=
  events.foldl fillStep (keys.map (fun k => (k, [])))

/-- `ParquetSinkWriter._batch_to_table`: one entry per field of the batch,
carrying the column values and the inferred column type. -/
def batchToTable (events : List Event) : List (String × List (Option PVal) × PAType) :=
  (fillColumns events (allKeys events)).map (fun kv => (kv.1, kv.2, inferPyarrowType kv.2))

/-- The mutable state of a `ParquetSinkWriter`: the buffered batch and the
write counters. -/
structure SinkState where
  batch : List Event := []
  fileCount : Nat := 0
  totalEventsWritten : Nat := 0
  deriving Repr, DecidableEq

/-- `ParquetSinkWriter.flush_batch`.  The file write (filename generation,
table conversion and `pq.write_table`) is an external effect; `writeOk`
is its outcome — `false` means the `try` block raised, landing in the
`except` branch before any state was changed. -/
def flushBatch (writeOk : Bool) (s : SinkState) : Bool × SinkState :=
  if s.batch.isEmpty then
    (true, s)
  else if writeOk then
    (true, { batch := [],
             fileCount := s.fileCount + 1,
             totalEventsWritten := s.totalEventsWritten + s.batch.length })
  else
    (false, s)

/-- Result of one `add_event` call: the returned boolean, whether the
batch-size check triggered a synchronous `flush_batch` call, and the
state after the call. -/
structure AddResult where
  accepted : Bool
  flushTriggered : Bool
  state : SinkState
  deriving Repr, DecidableEq

/-- `ParquetSinkWriter.add_event`: append to the buffer, flush synchronously
when the buffer has reached `batch_size`, and return `True` (the appended
record and the flush outcome do not affect the return value). -/
def addEvent (writeOk : Bool) (batchSize : Nat) (e : Event) (s : SinkState) : AddResult :=
  let s1 : SinkState := { s with batch := s.batch ++ [e] }
  if batchSize ≤ s1.batch.length then
    { accepted := true, flushTriggered := true, state := (flushBatch writeOk s1).2 }
  else
    { accepted := true, flushTriggered := false, state := s1 }

/-- Driver feeding records to `add_event` one at a time, returning the
number of triggered flushes and the final state. -/
def addSeq (writeOk : Bool) (batchSize : Nat) : List Event → SinkState → Nat × SinkState
  | [], s => (0, s)
  | e :: es, s =>
    let r := addEvent writeOk batchSize e s
    let rest := addSeq writeOk batchSize es r.state
    ((if r.flushTriggered then 1 else 0) + rest.1, rest.2)

/-! ## Dead-letter processing (`src/dead_letter_handler.py`) -/

/-- `DeadLetterHandler.process_dead_letter_event`.  Schema validation is the
black-box validation service: `validated` is `some` of the defaults-applied
copy it returns, or `none` when it raises.  `writeOk` is the outcome of
`DeadLetterSinkWriter.write_dead_letter_event`.  The returned record is the
caller's record after the call: the analysis is attached to it only in the
success path (`event['error_analysis'] = error_analysis` after a successful
sink write). -/
def processDeadLetterEvent (validated : Option DLEvent) (writeOk : Bool)
    (event : DLEvent) : Bool × DLEvent :=
  match validated with
  | none => (false, event)
  | some ve =>
    if writeOk then
      (true, { event with errorAnalysis := some (analyzeError ve) })
    else
      (false, event)

/-- Per-event category extraction in `DeadLetterAnalyzer.analyze_batch`:
`event.get('error_analysis', {}).get('error_category', 'unknown')`. -/
def categoryOf (event : DLEvent) : String :=
  (event.errorAnalysis.map (·.errorCategory)).getD "unknown"

/-- Per-event stage extraction in `analyze_batch`:
`event.get('processing_stage', 'unknown')`. -/
def stageOf (event : DLEvent) : String :=
  event.processingStage.getD "unknown"

/-- Per-event retry flag in `analyze_batch`:
`event.get('error_analysis', {}).get('can_retry', False)`. -/
def retryOf (event : DLEvent) : Bool :=
  (event.errorAnalysis.map (·.canRetry)).getD false

/-- A `collections.Counter` increment: bump the key's count, inserting it
with count 1 on first sight. -/
def insertLabel : List (String × Nat) → String → List (String × Nat)
  | [], k => [(k, 1)]
  | (k', n) :: rest, k =>
    if k' = k then (k', n + 1) :: rest else (k', n) :: insertLabel rest k

/-- The accumulator of the per-event loop of `analyze_batch`. -/
structure AnalyzeAcc where
  errorCategories : List (String × Nat) := []
  processingStages : List (String × Nat) := []
  retryableCount : Nat := 0
  nonRetryableCount : Nat := 0
  deriving Repr, DecidableEq

/-- One iteration of the per-event loop of `analyze_batch`. -/
def analyzeStep (acc : AnalyzeAcc) (event : DLEvent) : AnalyzeAcc :=
  { errorCategories := insertLabel acc.errorCategories (categoryOf event),
    processingStages := insertLabel acc.processingStages (stageOf event),
    retryableCount := acc.retryableCount + (if retryOf event then 1 else 0),
    nonRetryableCount := acc.nonRetryableCount + (if retryOf event then 0 else 1) }

/-- The batch analysis returned by `DeadLetterAnalyzer.analyze_batch`.
The `common_patterns`, `recommendations` and `analyzed_at` outputs are
derived from the same pass but are outside every claim, so they are not
carried here. -/
structure BatchAnalysis where
  totalEvents : Nat
  errorCategories : List (String × Nat)
  processingStages : List (String × Nat)
  retryableEvents : Nat
  nonRetryableEvents : Nat
  retryRate : ℚ
  deriving Repr, DecidableEq

/-- `DeadLetterAnalyzer.analyze_batch`: the empty-input early return, then
one pass over the events counting categories, stages and retryability. -/
def analyzeBatch (events : List DLEvent) : BatchAnalysis :=
  if events.isEmpty then
    { totalEvents := 0, errorCategories := [], processingStages := [],
      retryableEvents := 0, nonRetryableEvents := 0, retryRate := 0 }
  else
    let res := events.foldl analyzeStep {}
    { totalEvents := events.length,
      errorCategories := res.errorCategories,
      processingStages := res.processingStages,
      retryableEvents := res.retryableCount,
      nonRetryableEvents := res.nonRetryableCount,
      retryRate := (res.retryableCount : ℚ) / (events.length : ℚ) }

/-- Total count held by a histogram: the sum of its per-key counts. -/
def countSum (l : List (String × Nat)) : Nat :=
  (l.map Prod.snd).sum

/-! ## Health checker (`src/pipeline.py`) -/

/-- `PipelineHealthChecker.check_producer_health`.  `counters` is
`some (event_count, error_count)` read from the producer, `none` when the
read raises (the `except` branch).  Python's float division is modelled
exactly over `ℚ`; the thresholds exercised by the spec are far from any
rounding boundary. -/
def checkProducerHealth (counters : Option (Nat × Nat)) : String :=
  match counters with
  | none => "unhealthy"
  | some (eventCount, errorCount) =>
    let total := eventCount + errorCount
    if 0 < total ∧ (errorCount : ℚ) / (total : ℚ) > 1 / 10 then "warning" else "healthy"

/-- `PipelineHealthChecker.check_consumer_health`: same ratio rule over
`(processed_count, error_count)`. -/
def checkConsumerHealth (counters : Option (Nat × Nat)) : String :=
  match counters with
  | none => "unhealthy"
  | some (processedCount, errorCount) =>
    let total := processedCount + errorCount
    if 0 < total ∧ (errorCount : ℚ) / (total : ℚ) > 1 / 10 then "warning" else "healthy"

/-- `PipelineHealthChecker.check_dead_letter_health`: reads
`get_error_statistics()` — `some (processed_count, error_count)` of the
handler, `none` when the read raises — and warns exactly when
`failed_dead_letter_events > 0`. -/
def checkDeadLetterHealth (counters : Option (Nat × Nat)) : String :=
  match counters with
  | none => "unhealthy"
  | some (_processedCount, errorCount) =>
    if 0 < errorCount then "warning" else "healthy"

/-! ## Transform stage (`src/transform.py`) -/

/-- Modelled from the spec: the `event_type -> normalized_type` mapping table
of `schema/event_schema.yaml`, which is not under `src/`; entries follow the
spec's §8 scenarios and the repository's transform tests. -/
def eventTypeMapping : List (String × String) :=
  [("page_view", "view"), ("purchase", "conversion"),
   ("signup", "conversion"), ("click", "interaction")]

/-- Modelled from the spec: the `event_type -> category` table of
`schema/event_schema.yaml` (absent from `src/`), per §8 and the tests. -/
def eventCategories : List (String × String) :=
  [("page_view", "navigation"), ("purchase", "commerce"),
   ("signup", "user_management"), ("click", "interaction")]

/-- Modelled from the spec: the conversion-event set of
`schema/event_schema.yaml` (absent from `src/`), per §8 and the tests. -/
def conversionEvents : List String := ["purchase", "signup"]

/-- `SchemaValidator.get_event_type_mapping`. -/
def getEventTypeMapping (t : String) : String :=
  (eventTypeMapping.lookup t).getD "unknown"

/-- `SchemaValidator.get_event_category`. -/
def getEventCategory (t : String) : String :=
  (eventCategories.lookup t).getD "other"

/-- `SchemaValidator.is_conversion_event`. -/
def isConversionEvent (t : String) : Bool :=
  conversionEvents.contains t

/-- `EventTransformer._normalize_event_type`: look the event's
`event_type` up in the three tables.  A missing key, a `None` value or a
non-string value is a key of no table, so every lookup falls to its
default, exactly as in Python. -/
def normalizeEventTypeFields (e : Event) : Event :=
  match getVal e "event_type" with
  | some (.pStr s) =>
    [("normalized_event_type", some (.pStr (getEventTypeMapping s))),
     ("event_category", some (.pStr (getEventCategory s))),
     ("is_conversion", some (.pBool (isConversionEvent s)))]
  | _ =>
    [("normalized_event_type", some (.pStr "unknown")),
     ("event_category", some (.pStr "other")),
     ("is_conversion", some (.pBool false))]

/-- The event built by `transform_user_event` before validation: the five
extracted base fields, the normalization fields, the parsed user agent
(`uaParsed`, the black-box parser's output or the "unknown" placeholder)
and the processing metadata (`now` is the wall-clock stamp).  Every
`update` call adds keys disjoint from the earlier ones, so updating is
appending. -/
def transformPreValidate (now : String) (uaParsed : String) (e : Event) : Event :=
  [("event_id", getVal e "event_id"),
   ("user_id", getVal e "user_id"),
   ("event_type", getVal e "event_type"),
   ("timestamp", getVal e "timestamp"),
   ("session_id", getVal e "session_id")]
  ++ normalizeEventTypeFields e
  ++ [("user_agent_parsed", some (.pDict uaParsed))]
  ++ [("processed_at", some (.pStr now)), ("processing_version", some (.pStr "1.0"))]

/-- The `event_id` fallback of `SchemaValidator._apply_defaults`: a fresh
uuid (abstracted as `freshId`) when the key is absent. -/
def addEventIdDefault (freshId : String) (result : Event) : Event :=
  if (eventKeys result).contains "event_id" then result
  else result ++ [("event_id", some (.pStr freshId))]

/-- The `timestamp` fallback of `_apply_defaults`: the wall clock
(abstracted as `nowTs`) when the key is absent. -/
def addTimestampDefault (nowTs : String) (result : Event) : Event :=
  if (eventKeys result).contains "timestamp" then result
  else result ++ [("timestamp", some (.pStr nowTs))]

/-- `SchemaValidator._apply_defaults`: add each schema property default for
an absent key, then the `event_id`/`timestamp` fallbacks.  `schemaDefaults`
are the `(name, default)` pairs of the properties of
`schemas['transformed_event']` that declare a default; the schema file is
absent from `src/` and the spec declares no defaults, so the theorems
quantify over them. -/
def applyDefaults (schemaDefaults : Event) (freshId nowTs : String) (data : Event) : Event :=
  addTimestampDefault nowTs (addEventIdDefault freshId
    (data ++ schemaDefaults.filter (fun kv => !(eventKeys data).contains kv.1)))

/-- `EventTransformer.transform_user_event` end to end: build the
transformed record, then `validate_transformed_event` (defaults application
followed by the black-box `jsonschema.validate`, whose outcome is
`validationOk`; a raise propagates, yielding no record). -/
def transformUserEvent (schemaDefaults : Event) (validationOk : Bool)
    (now freshId nowTs : String) (uaParsed : String) (e : Event) : Option Event :=
  let transformed := transformPreValidate now uaParsed e
  let validated := applyDefaults schemaDefaults freshId nowTs transformed
  if validationOk then some validated else none

/-- The purchase record of spec §8's scenario and of
`test_transform.py::test_transform_user_event`, with a parametric amount. -/
def purchaseEvent (amount : ℚ) : Event :=
  [("event_id", some (.pStr "test-123")),
   ("user_id", some (.pStr "user-456")),
   ("event_type", some (.pStr "purchase")),
   ("timestamp", some (.pStr "2023-01-01T12:00:00")),
   ("session_id", some (.pStr "session-789")),
   ("amount", some (.pFloat amount))]

/-! ## Theorems -/

/-- C3: the categorizer applies the eight rules of §4.4 in order with
first-match-wins precedence: it coincides with the first-match evaluation of
the spec's ordered rule table, a message mentioning "required" or "missing"
yields `missing_required_field` whatever else the triple contains, each later
rule fires exactly when all earlier guards are false, and the fall-through
is `unknown_error`. -/
theorem C3_categorizer_first_match (et em st : String) :
    categorizeError et em st = categorizeSpec et em st ∧
    ((strContains (pyLower em) "required" || strContains (pyLower em) "missing") = true →
      categorizeError et em st = "missing_required_field") ∧
    ((strContains (pyLower em) "required" || strContains (pyLower em) "missing") = false →
      (strContains (pyLower em) "enum" || strContains (pyLower em) "not one of") = true →
      categorizeError et em st = "invalid_enum_value") ∧
    ((strContains (pyLower em) "required" || strContains (pyLower em) "missing") = false →
      (strContains (pyLower em) "enum" || strContains (pyLower em) "not one of") = false →
      (strContains (pyLower em) "type" || strContains et "TypeError") = true →
      categorizeError et em st = "data_type_error") ∧
    ((strContains (pyLower em) "required" || strContains (pyLower em) "missing") = false →
      (strContains (pyLower em) "enum" || strContains (pyLower em) "not one of") = false →
      (strContains (pyLower em) "type" || strContains et "TypeError") = false →
      (strContains (pyLower em) "connection" || strContains (pyLower em) "timeout") = true →
      categorizeError et em st = "network_error") ∧
    ((strContains (pyLower em) "required" || strContains (pyLower em) "missing") = false →
      (strContains (pyLower em) "enum" || strContains (pyLower em) "not one of") = false →
      (strContains (pyLower em) "type" || strContains et "TypeError") = false →
      (strContains (pyLower em) "connection" || strContains (pyLower em) "timeout") = false →
      (strContains (pyLower em) "disk" || strContains (pyLower em) "storage") = true →
      categorizeError et em st = "storage_error") ∧
    ((strContains (pyLower em) "required" || strContains (pyLower em) "missing") = false →
      (strContains (pyLower em) "enum" || strContains (pyLower em) "not one of") = false →
      (strContains (pyLower em) "type" || strContains et "TypeError") = false →
      (strContains (pyLower em) "connection" || strContains (pyLower em) "timeout") = false →
      (strContains (pyLower em) "disk" || strContains (pyLower em) "storage") = false →
      (strContains et "ValidationError" || strContains (pyLower em) "schema") = true →
      categorizeError et em st = "schema_validation_error") ∧
    ((strContains (pyLower em) "required" || strContains (pyLower em) "missing") = false →
      (strContains (pyLower em) "enum" || strContains (pyLower em) "not one of") = false →
      (strContains (pyLower em) "type" || strContains et "TypeError") = false →
      (strContains (pyLower em) "connection" || strContains (pyLower em) "timeout") = false →
      (strContains (pyLower em) "disk" || strContains (pyLower em) "storage") = false →
      (strContains et "ValidationError" || strContains (pyLower em) "schema") = false →
      (st = "producer_validation" → categorizeError et em st = "producer_validation_error") ∧
      (st ≠ "producer_validation" → st = "consumer_validation" →
        categorizeError et em st = "consumer_validation_error") ∧
      (st ≠ "producer_validation" → st ≠ "consumer_validation" → st = "transformation" →
        categorizeError et em st = "transformation_error") ∧
      (st ≠ "producer_validation" → st ≠ "consumer_validation" → st ≠ "transformation" →
        st = "sink_write" → categorizeError et em st = "sink_write_error") ∧
      (st ≠ "producer_validation" → st ≠ "consumer_validation" → st ≠ "transformation" →
        st ≠ "sink_write" → categorizeError et em st = "unknown_error")) := by
  refine ⟨?_, ?_, ?_, ?_, ?_, ?_, ?_, ?_⟩
  · simp only [categorizeError, categorizeSpec, categorySpecRules, firstMatch,
      Bool.if_true_left, decide_eq_true_eq]
  all_goals
    intros
    simp_all [categorizeError]

/-- C3 witness: a message containing "missing", "enum", "type" and
"connection" is still categorized `missing_required_field` — the first rule
wins. -/
theorem C3_categorizer_first_match_witness :
    (strContains (pyLower "missing enum type connection") "required" ||
      strContains (pyLower "missing enum type connection") "missing") = true ∧
    categorizeError "TypeError" "missing enum type connection" "transformation" =
      "missing_required_field" :=
  ⟨by decide,
   (C3_categorizer_first_match "TypeError" "missing enum type connection" "transformation").2.1
     (by decide)⟩

/-- C2 counterexample: a dead-letter record whose `error_message` is
"Connection timeout" but whose `error_type` mentions neither connection nor
timeout is categorized `network_error` yet gets `can_retry = false` — the
claim's "every dead-letter record whose error_message is Connection timeout
gets can_retry = true" is false on the code. -/
theorem C2_retry_counterexample :
    (analyzeError { errorType := some "RuntimeError",
                    errorMessage := some "Connection timeout",
                    processingStage := some "consumer_validation" }).errorCategory =
      "network_error" ∧
    (analyzeError { errorType := some "RuntimeError",
                    errorMessage := some "Connection timeout",
                    processingStage := some "consumer_validation" }).canRetry = false := by
  constructor <;> rfl

/-- C2 (amended): the retry decision is a first-match function of
`error_type` and `processing_stage` only — the error message never enters.
`ValidationError`/`TypeError`/"required" in the error type are never
retryable; otherwise connection/timeout markers in the lowercased error type
are retryable, then storage/disk markers, then the transformation stage;
everything else is non-retryable. -/
theorem C2_retry_policy (et st : String) :
    (∀ ea m₁ m₂ ps,
      (analyzeError
        ({ errorType := ea, errorMessage := m₁, processingStage := ps } : DLEvent)).canRetry =
      (analyzeError
        ({ errorType := ea, errorMessage := m₂, processingStage := ps } : DLEvent)).canRetry) ∧
    (strContains et "ValidationError" = true → canRetryEvent et st = false) ∧
    (strContains et "ValidationError" = false → strContains et "TypeError" = true →
      canRetryEvent et st = false) ∧
    (strContains et "ValidationError" = false → strContains et "TypeError" = false →
      strContains et "required" = true → canRetryEvent et st = false) ∧
    (strContains et "ValidationError" = false → strContains et "TypeError" = false →
      strContains et "required" = false →
      (strContains (pyLower et) "connection" || strContains (pyLower et) "timeout") = true →
      canRetryEvent et st = true) ∧
    (strContains et "ValidationError" = false → strContains et "TypeError" = false →
      strContains et "required" = false →
      (strContains (pyLower et) "connection" || strContains (pyLower et) "timeout") = false →
      (strContains (pyLower et) "storage" || strContains (pyLower et) "disk") = true →
      canRetryEvent et st = true) ∧
    (strContains et "ValidationError" = false → strContains et "TypeError" = false →
      strContains et "required" = false →
      (strContains (pyLower et) "connection" || strContains (pyLower et) "timeout") = false →
      (strContains (pyLower et) "storage" || strContains (pyLower et) "disk") = false →
      (st = "transformation" → canRetryEvent et st = true) ∧
      (st ≠ "transformation" → canRetryEvent et st = false)) := by
  refine ⟨fun ea m₁ m₂ ps => rfl, ?_, ?_, ?_, ?_, ?_, ?_⟩
  all_goals
    intros
    simp_all [canRetryEvent]

/-- C2 witness: the repository's own test record — `error_type`
"ConnectionError", `error_message` "Connection timeout" — is retryable. -/
theorem C2_retry_policy_witness :
    strContains "ConnectionError" "ValidationError" = false ∧
    canRetryEvent "ConnectionError" "consumer_validation" = true :=
  ⟨by decide,
   (C2_retry_policy "ConnectionError" "consumer_validation").2.2.2.2.1
     (by decide) (by decide) (by decide) (by decide)⟩

/-- C5: flushing a non-empty buffer returns the write outcome, clears the
buffer exactly when the write succeeds, and leaves the whole state — the
buffered records included — unchanged when the write fails; flushing an
empty buffer writes nothing and returns true. -/
theorem C5_flush_clears_iff_write_succeeds (writeOk : Bool) (s : SinkState)
    (h : s.batch ≠ []) :
    (flushBatch writeOk s).1 = writeOk ∧
    (flushBatch writeOk s).2.batch = (if writeOk then [] else s.batch) ∧
    ((flushBatch writeOk s).2.batch = [] ↔ writeOk = true) ∧
    (writeOk = false → flushBatch writeOk s = (false, s)) ∧
    (∀ s' : SinkState, s'.batch = [] → flushBatch writeOk s' = (true, s')) := by
  have hne : s.batch.isEmpty = false := by
    simpa [List.isEmpty_iff] using h
  refine ⟨?_, ?_, ?_, ?_, fun s' h' => ?_⟩
  · cases writeOk <;> simp [flushBatch, hne]
  · cases writeOk <;> simp [flushBatch, hne]
  · cases writeOk <;> simp [flushBatch, hne, h]
  · intro hw
    subst hw
    simp [flushBatch, hne]
  · simp [flushBatch, h']

/-- C5 witness: flushing one buffered record with a failing write returns
false and keeps the record; with a succeeding write it returns true and
clears the buffer. -/
theorem C5_flush_clears_iff_write_succeeds_witness :
    ((flushBatch false { batch := [[("a", some (PVal.pInt 1))]] }).1 = false ∧
      (flushBatch false { batch := [[("a", some (PVal.pInt 1))]] }).2.batch =
        [[("a", some (PVal.pInt 1))]]) ∧
    (flushBatch true { batch := [[("a", some (PVal.pInt 1))]] }).2.batch = [] := by
  have hfail := C5_flush_clears_iff_write_succeeds false
    { batch := [[("a", some (PVal.pInt 1))]] } (by decide)
  have hok := C5_flush_clears_iff_write_succeeds true
    { batch := [[("a", some (PVal.pInt 1))]] } (by decide)
  exact ⟨⟨hfail.1, by simpa using hfail.2.1⟩, by simpa using hok.2.1⟩

/-- C9: `add_event` always returns true — appending is the only thing its
return value reflects — and when the automatically triggered flush fails the
records (the fresh one included) simply stay buffered, so a caller of `add`
alone cannot observe the write failure. -/
theorem C9_add_event_hides_flush_failure (writeOk : Bool) (batchSize : Nat)
    (e : Event) (s : SinkState) :
    (addEvent writeOk batchSize e s).accepted = true ∧
    (addEvent false batchSize e s).state.batch = s.batch ++ [e] ∧
    (addEvent false batchSize e s).state = { s with batch := s.batch ++ [e] } := by
  by_cases hb : batchSize ≤ s.batch.length + 1 <;>
    refine ⟨?_, ?_, ?_⟩ <;>
    simp [addEvent, flushBatch, hb]

/-- One `add_event` call strictly below the batch-size boundary: no flush,
the record is appended. -/
theorem addEvent_below_boundary (writeOk : Bool) (batchSize : Nat) (e : Event)
    (s : SinkState) (h : s.batch.length + 1 < batchSize) :
    addEvent writeOk batchSize e s =
      { accepted := true, flushTriggered := false,
        state := { s with batch := s.batch ++ [e] } } := by
  have hb : ¬ batchSize ≤ s.batch.length + 1 := by omega
  simp [addEvent, hb]

/-- Feeding a sequence that never reaches the batch size triggers no flush
and accumulates every record in order. -/
theorem addSeq_below_boundary (writeOk : Bool) (batchSize : Nat)
    (es : List Event) (s : SinkState) (h : s.batch.length + es.length < batchSize) :
    addSeq writeOk batchSize es s = (0, { s with batch := s.batch ++ es }) := by
  induction es generalizing s with
  | nil => simp [addSeq]
  | cons e es ih =>
    rw [addSeq, addEvent_below_boundary writeOk batchSize e s (by simp at h; omega)]
    rw [ih { s with batch := s.batch ++ [e] } (by simp at h ⊢; omega)]
    simp

/-- `addSeq` splits over list append. -/
theorem addSeq_append (writeOk : Bool) (batchSize : Nat) (xs ys : List Event)
    (s : SinkState) :
    addSeq writeOk batchSize (xs ++ ys) s =
      ((addSeq writeOk batchSize xs s).1 +
        (addSeq writeOk batchSize ys (addSeq writeOk batchSize xs s).2).1,
       (addSeq writeOk batchSize ys (addSeq writeOk batchSize xs s).2).2) := by
  induction xs generalizing s with
  | nil => simp [addSeq]
  | cons e xs ih =>
    rw [List.cons_append, addSeq, addSeq, ih]
    simp [Nat.add_assoc]

/-- C6: starting from an empty buffer, adding exactly `batch_size` records
one at a time triggers no flush during the first `batch_size - 1` calls
(which just accumulate the records in order) and exactly one synchronous
flush inside the call that reaches `batch_size`; with a succeeding write the
final state has an empty buffer, one file written and all `batch_size`
records counted. -/
theorem C6_batch_size_triggers_one_flush (batchSize : Nat) (es : List Event)
    (h1 : 1 ≤ batchSize) (h2 : es.length = batchSize) :
    (∀ k, k < batchSize →
      addSeq true batchSize (es.take k) {} = (0, { batch := es.take k })) ∧
    addSeq true batchSize es {} =
      (1, { batch := [], fileCount := 1, totalEventsWritten := batchSize }) := by
  constructor
  · intro k hk
    have hlen : (es.take k).length = k := by
      simp [h2]
      omega
    have := addSeq_below_boundary true batchSize (es.take k)
      {} (by simpa [hlen] using hk)
    simpa using this
  · have hne : es ≠ [] := by
      intro hnil
      rw [hnil] at h2
      simp at h2
      omega
    obtain ⟨ys, y, hsplit⟩ : ∃ ys y, es = ys ++ [y] :=
      ⟨es.dropLast, es.getLast hne, (List.dropLast_append_getLast hne).symm⟩
    subst hsplit
    have hys : ys.length + 1 = batchSize := by
      simpa using h2
    have hbd : (({} : SinkState)).batch.length + ys.length < batchSize := by
      show ([] : List Event).length + ys.length < batchSize
      simp
      omega
    rw [addSeq_append, addSeq_below_boundary true batchSize ys {} hbd]
    have hcond : batchSize ≤ ys.length + 1 := by omega
    simp [addSeq, addEvent, flushBatch, hcond]
    omega

/-- C6 witness: with batch size 2, two adds from empty produce exactly one
flush and an empty buffer, and the one-record prefix triggers none. -/
theorem C6_batch_size_triggers_one_flush_witness :
    addSeq true 2 ([[("a", some (PVal.pInt 1))], [("b", some (PVal.pInt 2))]].take 1) {} =
      (0, { batch := [[("a", some (PVal.pInt 1))]] }) ∧
    addSeq true 2 [[("a", some (PVal.pInt 1))], [("b", some (PVal.pInt 2))]] {} =
      (1, { batch := [], fileCount := 1, totalEventsWritten := 2 }) :=
  ⟨(C6_batch_size_triggers_one_flush 2
      [[("a", some (PVal.pInt 1))], [("b", some (PVal.pInt 2))]]
      (by decide) (by decide)).1 1 (by decide),
   (C6_batch_size_triggers_one_flush 2
      [[("a", some (PVal.pInt 1))], [("b", some (PVal.pInt 2))]]
      (by decide) (by decide)).2⟩

/-- C4 counterexample: the dead-letter handler health check reports
"warning" for 1 failure against 99 successes, although the error ratio
1/100 does not exceed 10% — so "warning exactly when the ratio exceeds 10%"
is false for that component. -/
theorem C4_health_counterexample :
    checkDeadLetterHealth (some (99, 1)) = "warning" ∧
    ¬ ((1 : ℚ) / ((99 : ℚ) + (1 : ℚ)) > 1 / 10) := by
  constructor
  · rfl
  · norm_num

/-- C4 (amended): the producer and consumer checks report "warning" exactly
when their counters are readable, total > 0 and errors/total > 10%, and
"healthy" on zero counters; the dead-letter check instead reports "warning"
exactly when `failed_dead_letter_events > 0`; every check reports
"unhealthy" exactly when reading the counters raises.  2 errors out of 10
attempts is "warning" on all three. -/
theorem C4_health_statuses (p e : Nat) :
    checkProducerHealth none = "unhealthy" ∧
    checkConsumerHealth none = "unhealthy" ∧
    checkDeadLetterHealth none = "unhealthy" ∧
    checkProducerHealth (some (p, e)) ≠ "unhealthy" ∧
    checkConsumerHealth (some (p, e)) ≠ "unhealthy" ∧
    checkDeadLetterHealth (some (p, e)) ≠ "unhealthy" ∧
    (0 < p + e →
      (checkProducerHealth (some (p, e)) = "warning" ↔
        (e : ℚ) / ((p : ℚ) + (e : ℚ)) > 1 / 10)) ∧
    (0 < p + e →
      (checkConsumerHealth (some (p, e)) = "warning" ↔
        (e : ℚ) / ((p : ℚ) + (e : ℚ)) > 1 / 10)) ∧
    (checkDeadLetterHealth (some (p, e)) = "warning" ↔ 0 < e) ∧
    checkProducerHealth (some (0, 0)) = "healthy" ∧
    checkConsumerHealth (some (0, 0)) = "healthy" ∧
    checkDeadLetterHealth (some (0, 0)) = "healthy" ∧
    checkProducerHealth (some (8, 2)) = "warning" ∧
    checkConsumerHealth (some (8, 2)) = "warning" ∧
    checkDeadLetterHealth (some (8, 2)) = "warning" := by
  have hcast : ((p + e : Nat) : ℚ) = (p : ℚ) + (e : ℚ) := by
    push_cast
    ring
  refine ⟨rfl, rfl, rfl, ?_, ?_, ?_, ?_, ?_, ?_, ?_, ?_, ?_, ?_, ?_, ?_⟩
  · simp only [checkProducerHealth]
    split <;> decide
  · simp only [checkConsumerHealth]
    split <;> decide
  · simp only [checkDeadLetterHealth]
    split <;> decide
  · intro hpos
    by_cases hr : (e : ℚ) / ((p : ℚ) + (e : ℚ)) > 1 / 10 <;>
      simp [checkProducerHealth, hcast, hpos, hr]
  · intro hpos
    by_cases hr : (e : ℚ) / ((p : ℚ) + (e : ℚ)) > 1 / 10 <;>
      simp [checkConsumerHealth, hcast, hpos, hr]
  · by_cases hw : 0 < e <;> simp [checkDeadLetterHealth, hw]
  · simp [checkProducerHealth]
  · simp [checkConsumerHealth]
  · simp [checkDeadLetterHealth]
  · simp [checkProducerHealth]
    norm_num
  · simp [checkConsumerHealth]
    norm_num
  · simp [checkDeadLetterHealth]

/-- C4 witness: instantiating the amended statement at 8 successes and 2
errors — the producer check warns because 2/10 exceeds 10%, the dead-letter
check warns because 2 > 0. -/
theorem C4_health_statuses_witness :
    0 < 8 + 2 ∧
    (checkProducerHealth (some (8, 2)) = "warning" ↔
      (2 : ℚ) / ((8 : ℚ) + (2 : ℚ)) > 1 / 10) ∧
    (checkDeadLetterHealth (some (8, 2)) = "warning" ↔ 0 < 2) :=
  ⟨by norm_num,
   (C4_health_statuses 8 2).2.2.2.2.2.2.1 (by norm_num),
   (C4_health_statuses 8 2).2.2.2.2.2.2.2.2.1⟩

/-- C8 counterexample: a dead-letter record that already carries an
`error_analysis` (say from an earlier successful pass) and whose sink write
now fails keeps its analysis while the call returns false — the claimed
"contains error_analysis iff processing succeeded" is false for it. -/
theorem C8_analysis_iff_counterexample :
    (processDeadLetterEvent
      (some { errorType := some "ValidationError", errorMessage := some "Invalid event type",
              processingStage := some "producer_validation",
              errorAnalysis := some { errorCategory := "schema_validation_error",
                                      canRetry := false,
                                      remediationSuggestion := "r" } })
      false
      { errorType := some "ValidationError", errorMessage := some "Invalid event type",
        processingStage := some "producer_validation",
        errorAnalysis := some { errorCategory := "schema_validation_error",
                                canRetry := false,
                                remediationSuggestion := "r" } }).1 = false ∧
    (processDeadLetterEvent
      (some { errorType := some "ValidationError", errorMessage := some "Invalid event type",
              processingStage := some "producer_validation",
              errorAnalysis := some { errorCategory := "schema_validation_error",
                                      canRetry := false,
                                      remediationSuggestion := "r" } })
      false
      { errorType := some "ValidationError", errorMessage := some "Invalid event type",
        processingStage := some "producer_validation",
        errorAnalysis := some { errorCategory := "schema_validation_error",
                                canRetry := false,
                                remediationSuggestion := "r" } }).2.errorAnalysis.isSome =
      true := by
  constructor <;> rfl

/-- C8 (amended): for every dead-letter record handed in WITHOUT a
preexisting `error_analysis`, the caller's record contains `error_analysis`
after the call iff the call returned true; when validation raises or the
sink write fails the call returns false and leaves the record unchanged. -/
theorem C8_analysis_iff_processed (validated : Option DLEvent) (writeOk : Bool)
    (event : DLEvent) (h : event.errorAnalysis = none) :
    ((processDeadLetterEvent validated writeOk event).2.errorAnalysis.isSome = true ↔
      (processDeadLetterEvent validated writeOk event).1 = true) ∧
    (validated = none ∨ writeOk = false →
      processDeadLetterEvent validated writeOk event = (false, event)) := by
  cases validated with
  | none => simp [processDeadLetterEvent, h]
  | some ve => cases writeOk <;> simp [processDeadLetterEvent, h]

/-- C8 witness: a fresh record with no analysis, validated copy available
and a succeeding write — analysis presence coincides with the returned
true. -/
theorem C8_analysis_iff_processed_witness :
    (({ errorType := some "ValidationError" } : DLEvent).errorAnalysis = none) ∧
    ((processDeadLetterEvent (some { errorType := some "ValidationError" }) true
        { errorType := some "ValidationError" }).2.errorAnalysis.isSome = true ↔
      (processDeadLetterEvent (some { errorType := some "ValidationError" }) true
        { errorType := some "ValidationError" }).1 = true) :=
  ⟨rfl,
   (C8_analysis_iff_processed (some { errorType := some "ValidationError" }) true
     { errorType := some "ValidationError" } rfl).1⟩

/-- A Counter increment raises the histogram's total by one. -/
theorem countSum_insertLabel (l : List (String × Nat)) (k : String) :
    countSum (insertLabel l k) = countSum l + 1 := by
  induction l with
  | nil => simp [insertLabel, countSum]
  | cons kv rest ih =>
    obtain ⟨k', n⟩ := kv
    by_cases hk : k' = k <;>
      simp [insertLabel, countSum, hk, countSum] at ih ⊢ <;>
      omega

/-- The per-event loop of `analyze_batch` adds one to each partition —
retryable-or-not, category histogram, stage histogram — per event. -/
theorem analyzeStep_foldl (events : List DLEvent) (acc : AnalyzeAcc) :
    (events.foldl analyzeStep acc).retryableCount +
      (events.foldl analyzeStep acc).nonRetryableCount =
      acc.retryableCount + acc.nonRetryableCount + events.length ∧
    countSum (events.foldl analyzeStep acc).errorCategories =
      countSum acc.errorCategories + events.length ∧
    countSum (events.foldl analyzeStep acc).processingStages =
      countSum acc.processingStages + events.length := by
  induction events generalizing acc with
  | nil => simp
  | cons ev events ih =>
    obtain ⟨s1, s2, s3⟩ := ih (analyzeStep acc ev)
    have h1 : (analyzeStep acc ev).retryableCount + (analyzeStep acc ev).nonRetryableCount =
        acc.retryableCount + acc.nonRetryableCount + 1 := by
      cases hr : retryOf ev <;> simp [analyzeStep, hr] <;> omega
    have h2 : countSum (analyzeStep acc ev).errorCategories =
        countSum acc.errorCategories + 1 := by
      simp [analyzeStep, countSum_insertLabel]
    have h3 : countSum (analyzeStep acc ev).processingStages =
        countSum acc.processingStages + 1 := by
      simp [analyzeStep, countSum_insertLabel]
    refine ⟨?_, ?_, ?_⟩ <;>
      simp only [List.foldl_cons, List.length_cons] <;>
      omega

/-- C10: `analyze_batch` partitions its input exactly — retryable plus
non-retryable counts equal the number of input records, as do the totals of
the category histogram and of the stage histogram; a record without
`error_analysis` is counted as non-retryable under category "unknown". -/
theorem C10_analyze_batch_partitions (events : List DLEvent) :
    (analyzeBatch events).retryableEvents + (analyzeBatch events).nonRetryableEvents =
      events.length ∧
    (analyzeBatch events).totalEvents = events.length ∧
    countSum (analyzeBatch events).errorCategories = events.length ∧
    countSum (analyzeBatch events).processingStages = events.length ∧
    (∀ ev : DLEvent, ev.errorAnalysis = none →
      categoryOf ev = "unknown" ∧ retryOf ev = false) := by
  have hlast : ∀ ev : DLEvent, ev.errorAnalysis = none →
      categoryOf ev = "unknown" ∧ retryOf ev = false := by
    intro ev hev
    simp [categoryOf, retryOf, hev]
  cases events with
  | nil =>
    refine ⟨?_, ?_, ?_, ?_, hlast⟩ <;> simp [analyzeBatch, countSum]
  | cons e rest =>
    have hfold := analyzeStep_foldl (e :: rest) ({} : AnalyzeAcc)
    refine ⟨?_, ?_, ?_, ?_, hlast⟩
    · simpa [analyzeBatch] using hfold.1
    · simp [analyzeBatch]
    · simpa [analyzeBatch, countSum] using hfold.2.1
    · simpa [analyzeBatch, countSum] using hfold.2.2

/-- C10 witness: a two-record batch — one retryable network error, one
record with no analysis at all — splits 1/1, and the analysis-free record
counts as non-retryable with category "unknown". -/
theorem C10_analyze_batch_partitions_witness :
    (analyzeBatch
        [{ errorType := some "ConnectionError",
           errorAnalysis := some { errorCategory := "network_error", canRetry := true,
                                   remediationSuggestion := "r" } },
         { errorType := some "RuntimeError" }]).retryableEvents +
      (analyzeBatch
        [{ errorType := some "ConnectionError",
           errorAnalysis := some { errorCategory := "network_error", canRetry := true,
                                   remediationSuggestion := "r" } },
         { errorType := some "RuntimeError" }]).nonRetryableEvents = 2 ∧
    categoryOf ({ errorType := some "RuntimeError" } : DLEvent) = "unknown" ∧
    retryOf ({ errorType := some "RuntimeError" } : DLEvent) = false :=
  ⟨(C10_analyze_batch_partitions
      [{ errorType := some "ConnectionError",
         errorAnalysis := some { errorCategory := "network_error", canRetry := true,
                                 remediationSuggestion := "r" } },
       { errorType := some "RuntimeError" }]).1,
   (C10_analyze_batch_partitions [] |>.2.2.2.2) { errorType := some "RuntimeError" } rfl |>.1,
   (C10_analyze_batch_partitions [] |>.2.2.2.2) { errorType := some "RuntimeError" } rfl |>.2⟩

/-- Membership in the set-union fold of `allKeys`. -/
theorem mem_foldl_insertKey (l : List String) (acc : List String) (k : String) :
    (k ∈ l.foldl (fun acc k => if acc.contains k then acc else acc ++ [k]) acc) ↔
      k ∈ acc ∨ k ∈ l := by
  induction l generalizing acc with
  | nil => simp
  | cons a l ih =>
    simp only [List.foldl_cons]
    by_cases h : acc.contains a
    · have hmem : a ∈ acc := by simpa using h
      rw [if_pos h, ih]
      simp only [List.mem_cons]
      constructor
      · rintro (hk | hk)
        · exact Or.inl hk
        · exact Or.inr (Or.inr hk)
      · rintro (hk | hk | hk)
        · exact Or.inl hk
        · exact Or.inl (hk ▸ hmem)
        · exact Or.inr hk
    · rw [if_neg h, ih]
      simp [or_assoc]

/-- The set-union fold of `allKeys` keeps keys distinct. -/
theorem nodup_foldl_insertKey (l : List String) (acc : List String)
    (hacc : acc.Nodup) :
    (l.foldl (fun acc k => if acc.contains k then acc else acc ++ [k]) acc).Nodup := by
  induction l generalizing acc with
  | nil => simpa
  | cons a l ih =>
    simp only [List.foldl_cons]
    by_cases h : acc.contains a
    · rw [if_pos h]
      exact ih acc hacc
    · rw [if_neg h]
      refine ih (acc ++ [a]) ?_
      have hnm : a ∉ acc := by simpa using h
      simp [List.nodup_append, hacc, hnm]

/-- A field name is a column name of the batch exactly when some record of
the batch carries it. -/
theorem mem_allKeys (es : List Event) (k : String) :
    k ∈ allKeys es ↔ ∃ e ∈ es, k ∈ eventKeys e := by
  rw [allKeys, mem_foldl_insertKey]
  simp [List.mem_flatten]

/-- The column names of a batch are distinct. -/
theorem allKeys_nodup (es : List Event) : (allKeys es).Nodup :=
  nodup_foldl_insertKey _ [] List.nodup_nil

/-- The nested column-filling loops, run from a seeded set of columns. -/
theorem foldl_fillStep (es : List Event) (keys : List String)
    (acc : String → List (Option PVal)) :
    es.foldl fillStep (keys.map fun k => (k, acc k)) =
      keys.map fun k => (k, acc k ++ es.map fun e => getVal e k) := by
  induction es generalizing acc with
  | nil => simp
  | cons e es ih =>
    rw [List.foldl_cons]
    have hstep : fillStep (keys.map fun k => (k, acc k)) e =
        keys.map fun k => (k, acc k ++ [getVal e k]) := by
      simp only [fillStep, List.map_map]
      rfl
    rw [hstep, ih fun k => acc k ++ [getVal e k]]
    simp

/-- The columns built by `_batch_to_table`: one per key, holding each
record's value for that key in record order. -/
theorem fillColumns_eq (es : List Event) (keys : List String) :
    fillColumns es keys = keys.map fun k => (k, es.map fun e => getVal e k) := by
  have h := foldl_fillStep es keys fun _ => []
  simpa [fillColumns] using h

/-- A record without the field contributes a null to its column. -/
theorem getVal_eq_none_of_not_mem (e : Event) (k : String)
    (h : k ∉ eventKeys e) : getVal e k = none := by
  induction e with
  | nil => rfl
  | cons kv rest ih =>
    obtain ⟨a, b⟩ := kv
    simp only [eventKeys, List.map_cons, List.mem_cons, not_or] at h
    have htail := ih (by simpa [eventKeys] using h.2)
    have hba : (k == a) = false := by simp [h.1]
    simpa [getVal, List.lookup, hba] using htail

/-- C7: for a non-empty batch, the table has exactly the union of the
records' field names as its (distinct) columns; a column holds each
record's value for that field in order, null when the record lacks the
field; and each column's type is inferred from the first non-null value of
the column (bool, int64, float64, string, struct, list-of-string, string as
fallback), with an all-null column getting the null type. -/
theorem C7_batch_table_schema (es : List Event) (_hne : es ≠ []) :
    batchToTable es = (allKeys es).map (fun k =>
      (k, es.map fun e => getVal e k,
        inferPyarrowType (es.map fun e => getVal e k))) ∧
    (∀ k, (k ∈ (batchToTable es).map Prod.fst ↔ ∃ e ∈ es, k ∈ eventKeys e)) ∧
    ((batchToTable es).map Prod.fst).Nodup ∧
    (∀ (e : Event) (k : String), k ∉ eventKeys e → getVal e k = none) ∧
    (∀ vs : List (Option PVal), vs.filterMap id = [] →
      inferPyarrowType vs = PAType.null) ∧
    (∀ (vs : List (Option PVal)) (v : PVal) (rest : List PVal),
      vs.filterMap id = v :: rest → inferPyarrowType vs = sampleType v) := by
  have htable : batchToTable es = (allKeys es).map (fun k =>
      (k, es.map fun e => getVal e k,
        inferPyarrowType (es.map fun e => getVal e k))) := by
    rw [batchToTable, fillColumns_eq]
    simp [List.map_map]
  have hfst : (batchToTable es).map Prod.fst = allKeys es := by
    rw [htable, List.map_map]
    have hcomp : (Prod.fst ∘ fun k =>
        (k, es.map fun e => getVal e k,
          inferPyarrowType (es.map fun e => getVal e k))) = id := rfl
    rw [hcomp, List.map_id]
  refine ⟨htable, ?_, ?_, getVal_eq_none_of_not_mem, ?_, ?_⟩
  · intro k
    rw [hfst]
    exact mem_allKeys es k
  · rw [hfst]
    exact allKeys_nodup es
  · intro vs h
    simp [inferPyarrowType, h]
  · intro vs v rest h
    simp [inferPyarrowType, h]

/-- C7 witness: a two-record batch with fields {a, b} and {a}: columns are
a and b, b's second entry is null, a is typed int64 from its first value,
b is typed string from its first (and only) non-null value. -/
theorem C7_batch_table_schema_witness :
    batchToTable [[("a", some (PVal.pInt 1)), ("b", some (PVal.pStr "x"))],
                  [("a", some (PVal.pInt 2))]] =
      [("a", [some (PVal.pInt 1), some (PVal.pInt 2)], PAType.int64),
       ("b", [some (PVal.pStr "x"), none], PAType.string)] ∧
    ("b" ∈ (batchToTable [[("a", some (PVal.pInt 1)), ("b", some (PVal.pStr "x"))],
                  [("a", some (PVal.pInt 2))]]).map Prod.fst ↔
      ∃ e ∈ [[("a", some (PVal.pInt 1)), ("b", some (PVal.pStr "x"))],
             [("a", some (PVal.pInt 2))]], "b" ∈ eventKeys e) :=
  ⟨by decide,
   (C7_batch_table_schema
      [[("a", some (PVal.pInt 1)), ("b", some (PVal.pStr "x"))],
       [("a", some (PVal.pInt 2))]] (by decide)).2.1 "b"⟩

/-- When the key already occurs, the `event_id` fallback changes nothing. -/
theorem addEventIdDefault_of_mem (freshId : String) (result : Event)
    (h : "event_id" ∈ eventKeys result) :
    addEventIdDefault freshId result = result := by
  simp [addEventIdDefault, h]

/-- When the key already occurs, the `timestamp` fallback changes nothing. -/
theorem addTimestampDefault_of_mem (nowTs : String) (result : Event)
    (h : "timestamp" ∈ eventKeys result) :
    addTimestampDefault nowTs result = result := by
  simp [addTimestampDefault, h]

/-- On a record already carrying `event_id` and `timestamp`,
`_apply_defaults` only appends the schema defaults for absent keys. -/
theorem applyDefaults_of_has_id_ts (schemaDefaults : Event) (freshId nowTs : String)
    (data : Event) (hid : "event_id" ∈ eventKeys data)
    (hts : "timestamp" ∈ eventKeys data) :
    applyDefaults schemaDefaults freshId nowTs data =
      data ++ schemaDefaults.filter (fun kv => !(eventKeys data).contains kv.1) := by
  have hid2 : "event_id" ∈ eventKeys
      (data ++ schemaDefaults.filter (fun kv => !(eventKeys data).contains kv.1)) := by
    simp only [eventKeys, List.map_append, List.mem_append]
    exact Or.inl hid
  have hts2 : "timestamp" ∈ eventKeys
      (data ++ schemaDefaults.filter (fun kv => !(eventKeys data).contains kv.1)) := by
    simp only [eventKeys, List.map_append, List.mem_append]
    exact Or.inl hts
  rw [applyDefaults, addEventIdDefault_of_mem _ _ hid2, addTimestampDefault_of_mem _ _ hts2]

/-- Looking a key up in an appended record stays in the left part as long
as the left part binds it. -/
theorem getVal_append_of_isSome (l₁ l₂ : Event) (k : String)
    (h : (l₁.lookup k).isSome) :
    getVal (l₁ ++ l₂) k = getVal l₁ k := by
  induction l₁ with
  | nil => simp [List.lookup] at h
  | cons kv rest ih =>
    obtain ⟨a, b⟩ := kv
    cases hk : (k == a) with
    | true => simp [getVal, List.lookup, hk]
    | false =>
      have h' : (rest.lookup k).isSome := by
        simpa [List.lookup, hk] using h
      simpa [getVal, List.lookup, hk] using ih h'

/-- Field names of an appended record. -/
theorem mem_eventKeys_append (l₁ l₂ : Event) (k : String) :
    k ∈ eventKeys (l₁ ++ l₂) ↔ k ∈ eventKeys l₁ ∨ k ∈ eventKeys l₂ := by
  simp [eventKeys]

/-- A key not bound by `base` survives the absent-key filter of
`_apply_defaults` exactly when the schema defaults bind it. -/
theorem mem_keys_filter_not_contains (schemaDefaults : Event) (base : List String)
    (k : String) (hk : base.contains k = false) :
    (k ∈ eventKeys (schemaDefaults.filter fun kv => !base.contains kv.1)) ↔
      k ∈ eventKeys schemaDefaults := by
  constructor
  · intro h
    obtain ⟨kv, hkv, hfst⟩ := List.mem_map.mp h
    exact List.mem_map.mpr ⟨kv, (List.mem_filter.mp hkv).1, hfst⟩
  · intro h
    obtain ⟨kv, hkv, hfst⟩ := List.mem_map.mp h
    refine List.mem_map.mpr ⟨kv, List.mem_filter.mpr ⟨hkv, ?_⟩, hfst⟩
    rw [hfst, hk]
    rfl

/-- C1: on the spec's purchase record the enriched record does get
`normalized_event_type = "conversion"`, `event_category = "commerce"` and
`is_conversion = true`, but `transform_user_event` never calls
`_calculate_business_metrics`: the whole output is independent of the
record's `amount`, a `revenue` field exists only if the transformed-event
schema declares a constant default for one, and with no such default the
enriched record has no `revenue` at all — `revenue = 99.99` is impossible. -/
theorem C1_transform_drops_revenue (schemaDefaults : Event) (validationOk : Bool)
    (now freshId nowTs uaParsed : String) (q : ℚ) :
    transformUserEvent schemaDefaults validationOk now freshId nowTs uaParsed
        (purchaseEvent q) =
      transformUserEvent schemaDefaults validationOk now freshId nowTs uaParsed
        (purchaseEvent (9999 / 100)) ∧
    (∀ r : Event,
      transformUserEvent schemaDefaults true now freshId nowTs uaParsed
          (purchaseEvent q) = some r →
      getVal r "normalized_event_type" = some (.pStr "conversion") ∧
      getVal r "event_category" = some (.pStr "commerce") ∧
      getVal r "is_conversion" = some (.pBool true) ∧
      ("revenue" ∈ eventKeys r ↔ "revenue" ∈ eventKeys schemaDefaults) ∧
      (schemaDefaults = [] → getVal r "revenue" = none)) := by
  have hpre : ∀ q' : ℚ, transformPreValidate now uaParsed (purchaseEvent q') =
      [("event_id", some (.pStr "test-123")),
       ("user_id", some (.pStr "user-456")),
       ("event_type", some (.pStr "purchase")),
       ("timestamp", some (.pStr "2023-01-01T12:00:00")),
       ("session_id", some (.pStr "session-789")),
       ("normalized_event_type", some (.pStr "conversion")),
       ("event_category", some (.pStr "commerce")),
       ("is_conversion", some (.pBool true)),
       ("user_agent_parsed", some (.pDict uaParsed)),
       ("processed_at", some (.pStr now)),
       ("processing_version", some (.pStr "1.0"))] := fun q' => rfl
  constructor
  · simp only [transformUserEvent, hpre]
  · intro r hr
    simp only [transformUserEvent, hpre, if_true] at hr
    obtain rfl : applyDefaults schemaDefaults freshId nowTs
        (transformPreValidate now uaParsed (purchaseEvent q)) = r :=
      Option.some.inj hr
    rw [hpre, applyDefaults_of_has_id_ts _ _ _ _ (by simp [eventKeys]) (by simp [eventKeys])]
    refine ⟨?_, ?_, ?_, ?_, ?_⟩
    · rw [getVal_append_of_isSome _ _ _ (by rfl)]
      rfl
    · rw [getVal_append_of_isSome _ _ _ (by rfl)]
      rfl
    · rw [getVal_append_of_isSome _ _ _ (by rfl)]
      rfl
    · rw [mem_eventKeys_append, mem_keys_filter_not_contains _ _ _ (by rfl)]
      simp [eventKeys]
    · intro hempty
      subst hempty
      simp only [List.filter_nil, List.append_nil]
      rfl

/-- C1 at the failing input: with no schema defaults, the enriched record
for the amount-99.99 purchase has the three enrichment fields but no
`revenue` field at all. -/
theorem C1_transform_drops_revenue_witness :
    ∃ r : Event,
      transformUserEvent [] true "t0" "id0" "ts0" "ua0" (purchaseEvent (9999 / 100)) =
        some r ∧
      getVal r "normalized_event_type" = some (.pStr "conversion") ∧
      getVal r "event_category" = some (.pStr "commerce") ∧
      getVal r "is_conversion" = some (.pBool true) ∧
      getVal r "revenue" = none := by
  obtain ⟨h1, h2, h3, _, h5⟩ :=
    (C1_transform_drops_revenue [] true "t0" "id0" "ts0" "ua0" (9999 / 100)).2
      (applyDefaults [] "id0" "ts0"
        (transformPreValidate "t0" "ua0" (purchaseEvent (9999 / 100)))) rfl
  exact ⟨_, rfl, h1, h2, h3, h5 rfl⟩

end Pipeline
